import Mathlib

/-!
Shallow embedding of `groq_medical_app/app.py`, a Flask application storing
patients and chat turns in SQLite and calling an OpenAI-compatible chat
completions endpoint.

Modelling choices, each tied to the source:
* The two tables become Lean lists kept in insertion order.  `created_at`
  (SQL `DATETIME DEFAULT CURRENT_TIMESTAMP`) is modelled by a global clock
  that increases strictly at every insert, so timestamps are distinct and
  ascending in insertion order.
* `ORDER BY created_at ASC` is modelled as a stable sort by `created_at`
  (insertion sort), applied to the filtered rows.
* Python `str.strip()` strips surrounding whitespace; `pyStrip` does the
  same over the character list (the exact whitespace set is immaterial to
  the claims).
* The outbound HTTP call (`requests.post` + `raise_for_status` + `.json()`)
  is modelled by a parameter `net : List Msg → NetOutcome`: given the payload
  messages it either yields a parsed JSON body (`success`) or an exception
  (`failure e`, with `e` the text `str(e)` would produce).  A transport
  error, timeout, non-2xx status and a JSON parse error all raise, hence all
  are `failure`.
* JSON field access with defaults (`j.get("choices", [{}])[0]...`) is
  modelled field by field; an absent `choices` key is `none`, and the
  `IndexError` raised by `[0]` on an empty `choices` list is modelled
  explicitly (Python's message for it is "list index out of range").
* The schema declares `FOREIGN KEY(patient_id) REFERENCES patients(id)` but
  the app never issues `PRAGMA foreign_keys=ON`, and Python's sqlite3 leaves
  foreign-key enforcement off by default; accordingly inserts into `chats`
  succeed for any `patient_id`, exactly as in the running program.
-/

/-- A row of the `patients` table (columns used by the claims). -/
structure Patient where
  id : Int
  name : String
  age : Option String
  gender : Option String
  phone : Option String
  deriving Repr, DecidableEq

/-- A row of the `chats` table. -/
structure ChatTurn where
  patient_id : Int
  role : String
  content : String
  created_at : Nat
  deriving Repr, DecidableEq

/-- The database state plus the autoincrement counter for patients and the
clock producing `created_at` values. -/
structure DB where
  patients : List Patient
  chats : List ChatTurn
  next_patient_id : Int
  clock : Nat
  deriving Repr, DecidableEq

/-- The freshly initialised database (`init_db` creates empty tables;
sqlite autoincrement ids start at 1). -/
def init_db : DB := ⟨[], [], 1, 0⟩

/-- Python `str.strip()`: remove leading and trailing whitespace.  Written
over the character list so that it evaluates by kernel reduction. -/
def pyStrip (s : String) : String :=
  String.mk (((s.data.dropWhile Char.isWhitespace).reverse.dropWhile Char.isWhitespace).reverse)

/-- A role-tagged message of the completions payload. -/
structure Msg where
  role : String
  content : String
  deriving Repr, DecidableEq

/-- One element of the response's `choices` array.  `message_content` is
`choice.message.content` and `text` is `choice.text`; a missing or null
field reads back as `""` through the chained `.get(..., "")` defaults, which
the code then treats identically to an empty string. -/
structure Choice where
  message_content : String
  text : String
  deriving Repr, DecidableEq

/-- The parsed JSON body of a 2xx response; `none` models a missing
`choices` key (the code then substitutes the default `[` `{}` `]`). -/
structure GroqResponse where
  choices : Option (List Choice)
  deriving Repr, DecidableEq

/-- Outcome of the outbound completion call: a parsed body, or a raised
exception carrying the text `str(e)` yields. -/
inductive NetOutcome where
  | success (j : GroqResponse)
  | failure (err : String)
  deriving Repr, DecidableEq

/-- Server configuration: whether `GROQ_API_KEY` (or `OPENAI_API_KEY`) is
set. -/
structure Config where
  hasKey : Bool
  deriving Repr, DecidableEq

/-- The JSON body of a `POST /api/send_message` request.  `patient_id` is
the JSON number sent by the client (`none` = absent/null); `message`
likewise (`none` = absent/null). -/
structure SendRequest where
  patient_id : Option Int
  message : Option String
  deriving Repr, DecidableEq

/-- Python truthiness of the `patient_id` value: `None` and `0` are falsy. -/
def truthy_id : Option Int → Bool
  | none => false
  | some v => v != 0

/-- The fixed system instruction prepended to every payload. -/
def system_msg : Msg :=
  ⟨"system",
    "You are a helpful medical assistant. Provide general information and safe suggestions. " ++
    "Do NOT give definitive diagnoses. If symptoms sound urgent or dangerous, advise the user to seek immediate professional care."⟩

/-- Role normalisation in the assembly loop:
`role = "user" if r["role"] == "user" else "assistant"`. -/
def norm_role (r : String) : String := if r = "user" then "user" else "assistant"

/-- `SELECT role, content, created_at FROM chats WHERE patient_id = ?
ORDER BY created_at ASC`. -/
def chats_for (chats : List ChatTurn) (pid : Int) : List ChatTurn :=
  List.insertionSort (fun a b => a.created_at ≤ b.created_at)
    (chats.filter (fun t => t.patient_id = pid))

/-- The same query with `LIMIT 40` (the context slice of `api_send_message`). -/
def query_rows (db : DB) (pid : Int) : List ChatTurn :=
  (chats_for db.chats pid).take 40

/-- The assembly loop of `api_send_message`: system instruction, the rows of
the context slice with normalised roles, then the current user message. -/
def build_messages (rows : List ChatTurn) (user_message : String) : List Msg :=
  system_msg :: (rows.map (fun r => ⟨norm_role r.role, r.content⟩) ++ [⟨"user", user_message⟩])

/-- `INSERT INTO chats (patient_id, role, content) VALUES (?,?,?)` followed
by `commit`; `created_at` defaults to the current clock. -/
def insert_chat (db : DB) (pid : Int) (role content : String) : DB :=
  { db with chats := db.chats ++ [⟨pid, role, content, db.clock⟩], clock := db.clock + 1 }

/-- The advisory returned when no API key is configured. -/
def no_key_reply : String :=
  "AI key not configured on server. Ask admin to set GROQ_API_KEY env variable."

/-- The advisory returned when both extracted fields are empty. -/
def empty_reply : String := "Sorry, the AI returned an empty response."

/-- The advisory built in the `except` clause: `"Sorry, AI service error: " + str(e)`. -/
def service_error_reply (e : String) : String := "Sorry, AI service error: " ++ e

/-- Field extraction from a parsed body:
`j.get("choices", [{}])[0].get("message", {}).get("content", "")`, with the
fallback to `.get("text", "")` and the empty-response advisory.  `none`
models the `IndexError` raised when `choices` is present but empty. -/
def extract_reply (j : GroqResponse) : Option String :=
  match j.choices with
  | some [] => none
  | some (c :: _) =>
      some (if c.message_content ≠ "" then c.message_content
            else if c.text ≠ "" then c.text
            else empty_reply)
  | none => some empty_reply

/-- The whole `try`/`except` around the completion call: any raised
exception becomes the service-error advisory. -/
def completion_reply (outcome : NetOutcome) : String :=
  match outcome with
  | .failure e => service_error_reply e
  | .success j =>
      match extract_reply j with
      | some s => s
      | none => service_error_reply "list index out of range"

/-- The HTTP result of `api_send_message`: a 400 `{"error":"invalid input"}`
or a 200 `{"reply": ...}`. -/
inductive SendResult where
  | bad_request
  | ok (reply : String)
  deriving Repr, DecidableEq

/-- `api_send_message` (route `POST /api/send_message`), faithful to the
source order: validate, store the user turn, build the context from the
stored rows (which now include the user turn just stored), obtain the
assistant text, store the assistant turn, reply. -/
def api_send_message (cfg : Config) (db : DB) (req : SendRequest)
    (net : List Msg → NetOutcome) : DB × SendResult :=
  let user_message := pyStrip (req.message.getD "")
  if !truthy_id req.patient_id || user_message == "" then
    (db, .bad_request)
  else
    let pid := req.patient_id.getD 0
    let db1 := insert_chat db pid "user" user_message
    let messages := build_messages (query_rows db1 pid) user_message
    let assistant_text :=
      if !cfg.hasKey then no_key_reply
      else completion_reply (net messages)
    let db2 := insert_chat db1 pid "assistant" assistant_text
    (db2, .ok assistant_text)

/-- The message list a valid `api_send_message` call assembles and sends to
the completion endpoint (the value bound to `messages` in the source). -/
def send_context (db : DB) (req : SendRequest) : List Msg :=
  let user_message := pyStrip (req.message.getD "")
  let pid := req.patient_id.getD 0
  let db1 := insert_chat db pid "user" user_message
  build_messages (query_rows db1 pid) user_message

/-- The form fields of `POST /` (absent fields read back as `""`). -/
structure LoginForm where
  name : String
  age : String
  gender : String
  phone : String
  deriving Repr, DecidableEq

/-- `request.form.get(k, "").strip() or None` for the optional fields. -/
def opt_field (s : String) : Option String :=
  let t := pyStrip s
  if t = "" then none else some t

/-- Result of the `POST /` branch of `login`. -/
inductive LoginResult where
  | error_page (msg : String)
  | redirect_dashboard (pid : Int)
  deriving Repr, DecidableEq

/-- The `POST` branch of the `login` route: reject a blank name, otherwise
insert the patient and redirect to its dashboard. -/
def login (db : DB) (f : LoginForm) : DB × LoginResult :=
  let name := pyStrip f.name
  if name = "" then (db, .error_page "Name is required")
  else
    let p : Patient := ⟨db.next_patient_id, name, opt_field f.age, opt_field f.gender, opt_field f.phone⟩
    ({ db with patients := db.patients ++ [p], next_patient_id := db.next_patient_id + 1 },
     .redirect_dashboard p.id)

/-- The `chat` route: 404 (`none`) for an unknown patient, otherwise the
full history of the patient in ascending `created_at` order. -/
def chat (db : DB) (pid : Int) : Option (List ChatTurn) :=
  if db.patients.any (fun p => p.id == pid) then some (chats_for db.chats pid) else none

/-- State invariant maintained by the routes: `created_at` values are
strictly increasing along the `chats` list and below the clock. -/
def db_inv (db : DB) : Prop :=
  db.chats.Pairwise (fun a b => a.created_at < b.created_at) ∧
  ∀ t ∈ db.chats, t.created_at < db.clock

/-- Run a sequence of `send_message` calls for one patient, collecting the
replies. -/
def run_calls (cfg : Config) (pid : Int) :
    List (String × (List Msg → NetOutcome)) → DB → DB × List String
  | [], db => (db, [])
  | c :: cs, db =>
      let step := api_send_message cfg db ⟨some pid, some c.1⟩ c.2
      let rep := match step.2 with
        | .ok s => s
        | .bad_request => ""
      let rest := run_calls cfg pid cs step.1
      (rest.1, rep :: rest.2)

/-- The assistant text a valid call computes. -/
def send_reply (cfg : Config) (db : DB) (req : SendRequest)
    (net : List Msg → NetOutcome) : String :=
  if !cfg.hasKey then no_key_reply else completion_reply (net (send_context db req))

/-- A patient with 41 stored prior turns, contents "m1" … "m41". -/
def db41 : DB :=
  ⟨[⟨1, "p", none, none, none⟩],
   (List.range 41).map (fun i => ⟨1, "user", "m" ++ toString (i + 1), i⟩),
   2, 41⟩

/-- The state after a failing call for the patient of `db41`. -/
def db_after_fail : DB :=
  (api_send_message ⟨true⟩ db41 ⟨some 1, some "hi"⟩ (fun _ => NetOutcome.failure "boom")).1

/-- Concrete two-call scenario for the sequence theorem. -/
def demo_db : DB := ⟨[⟨1, "alice", none, none, none⟩], [], 2, 0⟩

/-- Two valid calls whose completion calls fail. -/
def demo_calls : List (String × (List Msg → NetOutcome)) :=
  [("hi", fun _ => NetOutcome.failure "x"), (" yo ", fun _ => NetOutcome.failure "y")]

/-- A network function that always fails (used by a concrete witness). -/
def fail_net : List Msg → NetOutcome := fun _ => NetOutcome.failure "x"

lemma api_send_message_valid (cfg : Config) (db : DB) (pid : Int) (m : String)
    (net : List Msg → NetOutcome) (hpid : pid ≠ 0) (hm : pyStrip m ≠ "") :
    api_send_message cfg db ⟨some pid, some m⟩ net =
      (insert_chat (insert_chat db pid "user" (pyStrip m)) pid "assistant"
        (send_reply cfg db ⟨some pid, some m⟩ net),
       SendResult.ok (send_reply cfg db ⟨some pid, some m⟩ net)) := by
  simp [api_send_message, send_context, send_reply, truthy_id, hpid, hm]

lemma db_inv_insert_chat (db : DB) (pid : Int) (r c : String) (h : db_inv db) :
    db_inv (insert_chat db pid r c) := by
  obtain ⟨hpw, hlt⟩ := h
  refine ⟨?_, ?_⟩
  · rw [insert_chat, List.pairwise_append]
    refine ⟨hpw, List.pairwise_singleton _ _, ?_⟩
    intro a ha b hb
    simp only [List.mem_singleton] at hb
    subst hb
    exact hlt a ha
  · intro t ht
    rcases List.mem_append.mp ht with h | h
    · exact Nat.lt_trans (hlt t h) (Nat.lt_succ_self _)
    · simp only [List.mem_singleton] at h
      subst h
      exact Nat.lt_succ_self _

lemma filter_insert_chat (db : DB) (pid : Int) (r c : String) :
    (insert_chat db pid r c).chats.filter (fun t => t.patient_id = pid)
      = db.chats.filter (fun t => t.patient_id = pid) ++ [⟨pid, r, c, db.clock⟩] := by
  simp [insert_chat, List.filter_append]

lemma chats_for_of_inv {db : DB} (pid : Int) (h : db_inv db) :
    chats_for db.chats pid = db.chats.filter (fun t => t.patient_id = pid) := by
  apply List.Sorted.insertionSort_eq
  exact (h.1.filter _).imp (fun hab => Nat.le_of_lt hab)

lemma mem_take_append (x : α) :
    ∀ (pre : List α) (n : Nat) (suf : List α), pre.length < n →
      x ∈ (pre ++ x :: suf).take n
  | [], n, suf, h => by
      match n, h with
      | n + 1, _ => simp [List.take_succ_cons]
  | p :: ps, n, suf, h => by
      match n, h with
      | n + 1, h =>
        rw [List.cons_append, List.take_succ_cons]
        exact List.mem_cons_of_mem _ (mem_take_append x ps n suf (by simpa using h))

lemma flat_pairs_length (l : List ((String × (List Msg → NetOutcome)) × String)) :
    (l.flatMap (fun cr => [("user", pyStrip cr.1.1), ("assistant", cr.2)])).length
      = 2 * l.length := by
  induction l with
  | nil => rfl
  | cons a as ih =>
      simp only [List.flatMap_cons, List.length_append, List.length_cons, List.length_nil, ih]
      omega

lemma run_calls_spec (cfg : Config) (pid : Int) (hpid : pid ≠ 0) :
    ∀ (calls : List (String × (List Msg → NetOutcome))) (db : DB),
      (∀ c ∈ calls, pyStrip c.1 ≠ "") → db_inv db →
      (run_calls cfg pid calls db).1.patients = db.patients ∧
      db_inv (run_calls cfg pid calls db).1 ∧
      (run_calls cfg pid calls db).2.length = calls.length ∧
      ((run_calls cfg pid calls db).1.chats.filter (fun t => t.patient_id = pid)).map
          (fun t => (t.role, t.content))
        = (db.chats.filter (fun t => t.patient_id = pid)).map (fun t => (t.role, t.content))
            ++ (calls.zip (run_calls cfg pid calls db).2).flatMap
                (fun cr => [("user", pyStrip cr.1.1), ("assistant", cr.2)])
  | [], db, hv, hinv => by
      refine ⟨rfl, hinv, rfl, ?_⟩
      simp [run_calls]
  | c :: cs, db, hv, hinv => by
      have hc : pyStrip c.1 ≠ "" := hv c (List.mem_cons_self _ _)
      have hstep := api_send_message_valid cfg db pid c.1 c.2 hpid hc
      have hinv2 : db_inv (insert_chat (insert_chat db pid "user" (pyStrip c.1)) pid "assistant"
          (send_reply cfg db ⟨some pid, some c.1⟩ c.2)) :=
        db_inv_insert_chat _ _ _ _ (db_inv_insert_chat _ _ _ _ hinv)
      obtain ⟨ihp, ihinv, ihlen, ihmap⟩ := run_calls_spec cfg pid hpid cs
        (insert_chat (insert_chat db pid "user" (pyStrip c.1)) pid "assistant"
          (send_reply cfg db ⟨some pid, some c.1⟩ c.2))
        (fun d hd => hv d (List.mem_cons_of_mem _ hd)) hinv2
      have hrun : run_calls cfg pid (c :: cs) db
          = ((run_calls cfg pid cs (insert_chat (insert_chat db pid "user" (pyStrip c.1)) pid
                "assistant" (send_reply cfg db ⟨some pid, some c.1⟩ c.2))).1,
             send_reply cfg db ⟨some pid, some c.1⟩ c.2
               :: (run_calls cfg pid cs (insert_chat (insert_chat db pid "user" (pyStrip c.1)) pid
                 "assistant" (send_reply cfg db ⟨some pid, some c.1⟩ c.2))).2) := by
        simp only [run_calls]
        rw [hstep]
      rw [hrun]
      refine ⟨ihp, ihinv, by simp [ihlen], ?_⟩
      rw [ihmap, filter_insert_chat, filter_insert_chat]
      simp only [List.map_append, List.zip_cons_cons, List.flatMap_cons, List.map_cons,
        List.map_nil, List.append_assoc, List.cons_append, List.nil_append]

/-- C1: the claim says the assembled context holds the 40 most recent prior
turns; on a patient with 41 prior turns ("m1" … "m41") the code's ascending
`LIMIT 40` slice instead keeps the oldest turn "m1" and drops the most
recent prior turn "m41", contradicting the claim (and the source's own
comment "Build recent conversation for context"). -/
theorem context_keeps_oldest_drops_recent :
    ((send_context db41 ⟨some 1, some "new"⟩).map Msg.content).contains "m1" = true ∧
    ((send_context db41 ⟨some 1, some "new"⟩).map Msg.content).contains "m41" = false := by
  constructor <;> decide

/-- C2: counterexample — for a patient with no prior turns and message
"hi", the assembled list holds the `user`/"hi" message twice (the stored
copy inside the prior-turns slice and the final append), not exactly
once. -/
theorem new_utterance_duplicated :
    (send_context ⟨[⟨1, "alice", none, none, none⟩], [], 2, 0⟩ ⟨some 1, some "hi"⟩).count
      ⟨"user", "hi"⟩ = 2 := by decide

/-- C2 amended: the assembled list always ends with the new utterance tagged
`user`, but the prior-turns slice is computed after the user turn is stored,
so with at most 39 prior turns for the patient the new utterance occurs at
least twice in the list. -/
theorem send_context_last_and_duplicate (db : DB) (pid : Int) (m : String)
    (hinv : db_inv db) :
    (send_context db ⟨some pid, some m⟩).getLast? = some ⟨"user", pyStrip m⟩ ∧
    ((db.chats.filter (fun t => t.patient_id = pid)).length ≤ 39 →
      2 ≤ (send_context db ⟨some pid, some m⟩).count ⟨"user", pyStrip m⟩) := by
  have hctx : send_context db ⟨some pid, some m⟩
      = system_msg :: ((query_rows (insert_chat db pid "user" (pyStrip m)) pid).map
          (fun r => ⟨norm_role r.role, r.content⟩) ++ [⟨"user", pyStrip m⟩]) := by
    simp [send_context, build_messages]
  constructor
  · rw [hctx, ← List.cons_append, List.getLast?_concat]
  · intro hlen
    have hinv1 := db_inv_insert_chat db pid "user" (pyStrip m) hinv
    have hq : query_rows (insert_chat db pid "user" (pyStrip m)) pid
        = ((db.chats.filter (fun t => t.patient_id = pid))
            ++ [(⟨pid, "user", pyStrip m, db.clock⟩ : ChatTurn)]).take 40 := by
      rw [query_rows, chats_for_of_inv _ hinv1, filter_insert_chat]
    have hu : (⟨pid, "user", pyStrip m, db.clock⟩ : ChatTurn)
        ∈ query_rows (insert_chat db pid "user" (pyStrip m)) pid := by
      rw [hq]
      exact mem_take_append _ (db.chats.filter (fun t => t.patient_id = pid)) 40 [] (by omega)
    have humem : (⟨"user", pyStrip m⟩ : Msg)
        ∈ (query_rows (insert_chat db pid "user" (pyStrip m)) pid).map
            (fun r => ⟨norm_role r.role, r.content⟩) :=
      List.mem_map.mpr ⟨_, hu, by simp [norm_role]⟩
    have h1 : 0 < List.count (⟨"user", pyStrip m⟩ : Msg)
        ((query_rows (insert_chat db pid "user" (pyStrip m)) pid).map
          (fun r => ⟨norm_role r.role, r.content⟩)) := List.count_pos_iff.mpr humem
    rw [hctx, List.count_cons, List.count_append, List.count_singleton]
    simp only [beq_self_eq_true, if_true]
    omega

theorem send_context_last_and_duplicate_witness :
    (send_context ⟨[⟨1, "bob", none, none, none⟩], [], 2, 0⟩ ⟨some 1, some "hey"⟩).getLast?
        = some ⟨"user", pyStrip "hey"⟩ ∧
    2 ≤ (send_context ⟨[⟨1, "bob", none, none, none⟩], [], 2, 0⟩ ⟨some 1, some "hey"⟩).count
        ⟨"user", pyStrip "hey"⟩ := by
  have h := send_context_last_and_duplicate ⟨[⟨1, "bob", none, none, none⟩], [], 2, 0⟩ 1 "hey"
    ⟨List.Pairwise.nil, by simp⟩
  exact ⟨h.1, h.2 (by decide)⟩

/-- C3: on a fresh database with no patients at all, `send_message` with
`patient_id = 5` stores two chat turns referencing patient 5, so a stored
turn need not reference an existing patient row. -/
theorem turn_stored_without_patient :
    (api_send_message ⟨false⟩ init_db ⟨some 5, some "hi"⟩ (fun _ => NetOutcome.failure "")).1.patients = [] ∧
    ((api_send_message ⟨false⟩ init_db ⟨some 5, some "hi"⟩ (fun _ => NetOutcome.failure "")).1.chats.map
      (fun t => t.patient_id)) = [5, 5] := by
  constructor <;> decide

/-- C4: `send_message` answers 400 exactly when `patient_id` is falsy
(absent/zero) or the message is empty after trimming, and then stores
nothing. -/
theorem send_message_bad_request_iff (cfg : Config) (db : DB) (req : SendRequest)
    (net : List Msg → NetOutcome) :
    ((api_send_message cfg db req net).2 = SendResult.bad_request ↔
      (truthy_id req.patient_id = false ∨ pyStrip (req.message.getD "") = "")) ∧
    ((api_send_message cfg db req net).2 = SendResult.bad_request →
      (api_send_message cfg db req net).1 = db) := by
  by_cases hp : truthy_id req.patient_id
  · by_cases hm : pyStrip (req.message.getD "") = ""
    · simp [api_send_message, hp, hm]
    · simp [api_send_message, hp, hm]
  · simp only [Bool.not_eq_true] at hp
    simp [api_send_message, hp]

theorem send_message_bad_request_iff_witness :
    (api_send_message ⟨true⟩ init_db ⟨none, some "hi"⟩ (fun _ => NetOutcome.failure "")).2
        = SendResult.bad_request ∧
    (api_send_message ⟨true⟩ init_db ⟨none, some "hi"⟩ (fun _ => NetOutcome.failure "")).1
        = init_db := by
  have h := send_message_bad_request_iff ⟨true⟩ init_db ⟨none, some "hi"⟩
    (fun _ => NetOutcome.failure "")
  have hbad := h.1.mpr (Or.inl rfl)
  exact ⟨hbad, h.2 hbad⟩

/-- C5: starting with no stored turns for the patient, N valid calls leave
exactly 2N turns for that patient — per call one `user` turn holding the
trimmed message and one `assistant` turn holding the returned reply — and
the chat view retrieves them in ascending `created_at` order. -/
theorem send_sequence_turn_count (cfg : Config) (db : DB) (pid : Int)
    (calls : List (String × (List Msg → NetOutcome)))
    (hpid : pid ≠ 0)
    (hv : ∀ c ∈ calls, pyStrip c.1 ≠ "")
    (hinv : db_inv db)
    (hpat : db.patients.any (fun p => p.id == pid) = true)
    (hempty : db.chats.filter (fun t => t.patient_id = pid) = []) :
    ((run_calls cfg pid calls db).1.chats.filter (fun t => t.patient_id = pid)).length
        = 2 * calls.length ∧
    ((run_calls cfg pid calls db).1.chats.filter (fun t => t.patient_id = pid)).map
        (fun t => (t.role, t.content))
      = (calls.zip (run_calls cfg pid calls db).2).flatMap
          (fun cr => [("user", pyStrip cr.1.1), ("assistant", cr.2)]) ∧
    chat (run_calls cfg pid calls db).1 pid
      = some ((run_calls cfg pid calls db).1.chats.filter (fun t => t.patient_id = pid)) ∧
    ((run_calls cfg pid calls db).1.chats.filter (fun t => t.patient_id = pid)).Pairwise
        (fun a b => a.created_at < b.created_at) := by
  obtain ⟨hp, hinv2, hlen, hmap⟩ := run_calls_spec cfg pid hpid calls db hv hinv
  have hmap2 : ((run_calls cfg pid calls db).1.chats.filter
      (fun t => t.patient_id = pid)).map (fun t => (t.role, t.content))
      = (calls.zip (run_calls cfg pid calls db).2).flatMap
          (fun cr => [("user", pyStrip cr.1.1), ("assistant", cr.2)]) := by
    rw [hmap, hempty]
    simp
  refine ⟨?_, hmap2, ?_, ?_⟩
  · have := congrArg List.length hmap2
    rw [List.length_map, flat_pairs_length, List.length_zip, hlen] at this
    simpa using this
  · rw [chat, hp, if_pos hpat, chats_for_of_inv _ hinv2]
  · exact hinv2.1.filter _

theorem send_sequence_turn_count_witness :
    ((run_calls ⟨true⟩ 1 demo_calls demo_db).1.chats.filter
        (fun t => t.patient_id = 1)).length = 2 * demo_calls.length ∧
    ((run_calls ⟨true⟩ 1 demo_calls demo_db).1.chats.filter
        (fun t => t.patient_id = 1)).map (fun t => (t.role, t.content))
      = (demo_calls.zip (run_calls ⟨true⟩ 1 demo_calls demo_db).2).flatMap
          (fun cr => [("user", pyStrip cr.1.1), ("assistant", cr.2)]) ∧
    chat (run_calls ⟨true⟩ 1 demo_calls demo_db).1 1
      = some ((run_calls ⟨true⟩ 1 demo_calls demo_db).1.chats.filter
          (fun t => t.patient_id = 1)) ∧
    ((run_calls ⟨true⟩ 1 demo_calls demo_db).1.chats.filter
        (fun t => t.patient_id = 1)).Pairwise (fun a b => a.created_at < b.created_at) :=
  send_sequence_turn_count ⟨true⟩ demo_db 1 demo_calls
    (by decide)
    (by
      intro c hc
      simp only [demo_calls, List.mem_cons, List.not_mem_nil, or_false] at hc
      rcases hc with h | h <;> subst h <;> decide)
    ⟨List.Pairwise.nil, by simp [demo_db]⟩ rfl rfl

/-- C6: with no API key the reply is the fixed advisory, both turns are
persisted, and the outcome does not depend on the network at all. -/
theorem send_message_no_key (cfg : Config) (db : DB) (pid : Int) (m : String)
    (net net2 : List Msg → NetOutcome)
    (hkey : cfg.hasKey = false) (hpid : pid ≠ 0) (hm : pyStrip m ≠ "") :
    api_send_message cfg db ⟨some pid, some m⟩ net =
      (insert_chat (insert_chat db pid "user" (pyStrip m)) pid "assistant" no_key_reply,
       SendResult.ok no_key_reply) ∧
    api_send_message cfg db ⟨some pid, some m⟩ net =
      api_send_message cfg db ⟨some pid, some m⟩ net2 := by
  have e1 := api_send_message_valid cfg db pid m net hpid hm
  have e2 := api_send_message_valid cfg db pid m net2 hpid hm
  rw [e1, e2]
  simp [send_reply, hkey]

theorem send_message_no_key_witness :
    api_send_message ⟨false⟩ init_db ⟨some 1, some "hi"⟩ (fun _ => NetOutcome.failure "a") =
      (insert_chat (insert_chat init_db 1 "user" (pyStrip "hi")) 1 "assistant" no_key_reply,
       SendResult.ok no_key_reply) ∧
    api_send_message ⟨false⟩ init_db ⟨some 1, some "hi"⟩ (fun _ => NetOutcome.failure "a") =
      api_send_message ⟨false⟩ init_db ⟨some 1, some "hi"⟩ (fun _ => NetOutcome.success ⟨none⟩) :=
  send_message_no_key ⟨false⟩ init_db 1 "hi" _ _ rfl (by decide) (by decide)

/-- C7: any raised failure of the completion call is absorbed into the
service-error advisory (which quotes the diagnostic), both turns are
persisted, and the route still answers with a 200 reply. -/
theorem send_message_service_error (cfg : Config) (db : DB) (pid : Int) (m e : String)
    (net : List Msg → NetOutcome)
    (hkey : cfg.hasKey = true) (hpid : pid ≠ 0) (hm : pyStrip m ≠ "")
    (hfail : net (send_context db ⟨some pid, some m⟩) = NetOutcome.failure e) :
    api_send_message cfg db ⟨some pid, some m⟩ net =
      (insert_chat (insert_chat db pid "user" (pyStrip m)) pid "assistant"
        (service_error_reply e),
       SendResult.ok (service_error_reply e)) := by
  rw [api_send_message_valid cfg db pid m net hpid hm]
  simp [send_reply, hkey, hfail, completion_reply]

theorem send_message_service_error_witness :
    api_send_message ⟨true⟩ init_db ⟨some 1, some "hi"⟩ (fun _ => NetOutcome.failure "timeout") =
      (insert_chat (insert_chat init_db 1 "user" (pyStrip "hi")) 1 "assistant"
        (service_error_reply "timeout"),
       SendResult.ok (service_error_reply "timeout")) :=
  send_message_service_error ⟨true⟩ init_db 1 "hi" "timeout" _ rfl (by decide) (by decide) rfl

/-- C8: on a parsed response with at least one choice, the reply is the
first choice's message content, else its `text` field, else the fixed
empty-response advisory. -/
theorem send_message_success_extraction (cfg : Config) (db : DB) (pid : Int) (m : String)
    (net : List Msg → NetOutcome) (c : Choice) (rest : List Choice)
    (hkey : cfg.hasKey = true) (hpid : pid ≠ 0) (hm : pyStrip m ≠ "")
    (hnet : net (send_context db ⟨some pid, some m⟩) = NetOutcome.success ⟨some (c :: rest)⟩) :
    (api_send_message cfg db ⟨some pid, some m⟩ net).2 =
      SendResult.ok (if c.message_content ≠ "" then c.message_content
        else if c.text ≠ "" then c.text else empty_reply) := by
  rw [api_send_message_valid cfg db pid m net hpid hm]
  simp [send_reply, hkey, hnet, completion_reply, extract_reply]

theorem send_message_success_extraction_witness :
    (api_send_message ⟨true⟩ init_db ⟨some 1, some "hi"⟩
        (fun _ => NetOutcome.success ⟨some [⟨"hello", "alt"⟩]⟩)).2 =
      SendResult.ok (if ("hello" : String) ≠ "" then "hello"
        else if ("alt" : String) ≠ "" then "alt" else empty_reply) :=
  send_message_success_extraction ⟨true⟩ init_db 1 "hi" _ ⟨"hello", "alt"⟩ []
    rfl (by decide) (by decide) rfl

/-- C9: a blank-after-trim name creates no patient row and re-renders the
form with the error. -/
theorem login_blank_name (db : DB) (f : LoginForm) (h : pyStrip f.name = "") :
    login db f = (db, LoginResult.error_page "Name is required") := by
  simp [login, h]

theorem login_blank_name_witness :
    login init_db ⟨"   ", "30", "f", "123"⟩ = (init_db, LoginResult.error_page "Name is required") :=
  login_blank_name init_db ⟨"   ", "30", "f", "123"⟩ (by decide)

/-- C10: counterexample — after a failing call on a patient with 41 prior
turns the advisory is stored in the history, yet the next call's assembled
context does not contain it (it lies beyond the 40-turn slice). -/
theorem advisory_absent_from_later_context :
    ((db_after_fail.chats.map (fun t => t.content)).contains "Sorry, AI service error: boom" = true) ∧
    (((send_context db_after_fail ⟨some 1, some "next"⟩).map Msg.content).contains
        "Sorry, AI service error: boom" = false) := by
  constructor <;> decide

/-- C10 amended: a valid call whose completion path fails — missing
credential or any upstream error — persists the advisory string (the
configuration advisory or the diagnostic-bearing service-error advisory) as
the assistant turn; the chat view replays it, and it enters the next
assembled context when it falls inside the 40-turn window of the slice. -/
theorem failure_reply_persisted_and_windowed (cfg : Config) (db : DB) (pid : Int)
    (m m2 : String) (net : List Msg → NetOutcome)
    (hpid : pid ≠ 0) (hm : pyStrip m ≠ "")
    (hfail : cfg.hasKey = false ∨
      ∃ e, net (send_context db ⟨some pid, some m⟩) = NetOutcome.failure e)
    (hinv : db_inv db)
    (hpat : db.patients.any (fun p => p.id == pid) = true)
    (hlen : (db.chats.filter (fun t => t.patient_id = pid)).length ≤ 38) :
    (send_reply cfg db ⟨some pid, some m⟩ net = no_key_reply ∨
      ∃ e, send_reply cfg db ⟨some pid, some m⟩ net = service_error_reply e) ∧
    (api_send_message cfg db ⟨some pid, some m⟩ net).1.chats.getLast?
        = some ⟨pid, "assistant", send_reply cfg db ⟨some pid, some m⟩ net, db.clock + 1⟩ ∧
    (∃ l, chat (api_send_message cfg db ⟨some pid, some m⟩ net).1 pid = some l ∧
        (⟨pid, "assistant", send_reply cfg db ⟨some pid, some m⟩ net,
          db.clock + 1⟩ : ChatTurn) ∈ l) ∧
    (⟨"assistant", send_reply cfg db ⟨some pid, some m⟩ net⟩ : Msg)
        ∈ send_context (api_send_message cfg db ⟨some pid, some m⟩ net).1
            ⟨some pid, some m2⟩ := by
  have hadv : send_reply cfg db ⟨some pid, some m⟩ net = no_key_reply ∨
      ∃ e, send_reply cfg db ⟨some pid, some m⟩ net = service_error_reply e := by
    cases hk : cfg.hasKey
    · exact Or.inl (by simp [send_reply, hk])
    · rcases hfail with h | ⟨e, he⟩
      · rw [h] at hk
        exact absurd hk (by decide)
      · exact Or.inr ⟨e, by simp [send_reply, hk, he, completion_reply]⟩
  have heq : (api_send_message cfg db ⟨some pid, some m⟩ net).1
      = insert_chat (insert_chat db pid "user" (pyStrip m)) pid "assistant"
          (send_reply cfg db ⟨some pid, some m⟩ net) := by
    rw [api_send_message_valid cfg db pid m net hpid hm]
  refine ⟨hadv, ?_⟩
  rw [heq]
  generalize send_reply cfg db ⟨some pid, some m⟩ net = a
  have hinv1 := db_inv_insert_chat db pid "user" (pyStrip m) hinv
  have hinv2 := db_inv_insert_chat (insert_chat db pid "user" (pyStrip m)) pid "assistant"
    a hinv1
  refine ⟨?_, ?_, ?_⟩
  · show ((insert_chat db pid "user" (pyStrip m)).chats
        ++ [(⟨pid, "assistant", a, db.clock + 1⟩ : ChatTurn)]).getLast?
      = _
    rw [List.getLast?_concat]
  · refine ⟨chats_for (insert_chat (insert_chat db pid "user" (pyStrip m)) pid "assistant"
        a).chats pid, ?_, ?_⟩
    · rw [chat]
      have hpat2 : ((insert_chat (insert_chat db pid "user" (pyStrip m)) pid "assistant"
          a).patients.any (fun p => p.id == pid)) = true := hpat
      rw [if_pos hpat2]
    · rw [chats_for_of_inv _ hinv2, filter_insert_chat]
      exact List.mem_append_right _ (List.mem_singleton.mpr rfl)
  · have hq : query_rows (insert_chat (insert_chat (insert_chat db pid "user" (pyStrip m))
        pid "assistant" a) pid "user" (pyStrip m2)) pid
        = (((db.chats.filter (fun t => t.patient_id = pid))
              ++ [(⟨pid, "user", pyStrip m, db.clock⟩ : ChatTurn)])
            ++ ((⟨pid, "assistant", a, db.clock + 1⟩ : ChatTurn)
              :: [(⟨pid, "user", pyStrip m2, db.clock + 2⟩ : ChatTurn)])).take 40 := by
      rw [query_rows, chats_for_of_inv _ (db_inv_insert_chat _ _ _ _ hinv2),
        filter_insert_chat, filter_insert_chat, filter_insert_chat]
      simp [insert_chat, List.append_assoc]
    have hmem : (⟨pid, "assistant", a, db.clock + 1⟩ : ChatTurn)
        ∈ query_rows (insert_chat (insert_chat (insert_chat db pid "user" (pyStrip m))
            pid "assistant" a) pid "user" (pyStrip m2)) pid := by
      rw [hq]
      apply mem_take_append
      rw [List.length_append]
      simp only [List.length_singleton]
      omega
    show (⟨"assistant", a⟩ : Msg) ∈ build_messages (query_rows _ _) _
    rw [build_messages]
    apply List.mem_cons_of_mem
    apply List.mem_append_left
    exact List.mem_map.mpr ⟨_, hmem, by simp [norm_role]⟩

theorem failure_reply_persisted_and_windowed_witness :
    (send_reply ⟨false⟩ demo_db ⟨some 1, some "hi"⟩ fail_net = no_key_reply ∨
      ∃ e, send_reply ⟨false⟩ demo_db ⟨some 1, some "hi"⟩ fail_net = service_error_reply e) ∧
    (api_send_message ⟨false⟩ demo_db ⟨some 1, some "hi"⟩ fail_net).1.chats.getLast?
        = some ⟨1, "assistant", send_reply ⟨false⟩ demo_db ⟨some 1, some "hi"⟩ fail_net, 0 + 1⟩ ∧
    (∃ l, chat (api_send_message ⟨false⟩ demo_db ⟨some 1, some "hi"⟩ fail_net).1 1 = some l ∧
        (⟨1, "assistant", send_reply ⟨false⟩ demo_db ⟨some 1, some "hi"⟩ fail_net,
          0 + 1⟩ : ChatTurn) ∈ l) ∧
    (⟨"assistant", send_reply ⟨false⟩ demo_db ⟨some 1, some "hi"⟩ fail_net⟩ : Msg)
        ∈ send_context (api_send_message ⟨false⟩ demo_db ⟨some 1, some "hi"⟩ fail_net).1
            ⟨some 1, some "next"⟩ :=
  failure_reply_persisted_and_windowed ⟨false⟩ demo_db 1 "hi" "next" fail_net
    (by decide) (by decide) (Or.inl rfl) ⟨List.Pairwise.nil, by simp [demo_db]⟩ rfl (by decide)
